import Mathlib

/-!
Shallow embedding of the pattern/playback timing model of the classical-guitar
sight-reading trainer (src/main.js, with the earlier revision
src/unnamed/part_000 embedded where the two differ in a claim-relevant way).

Pixel coordinates and speeds are modelled as exact rationals (the JS engine
uses binary floating point; every quantity the claims touch stays far from a
comparison boundary, so the rational model agrees with the float behaviour on
all runs considered here).  The per-frame callback Player.update is a pure
state transformer that also returns the list of events it emits this tick
(playbackStarted broadcasts and the playNote requests handed to the audio
engine).  The deferred setTimeout callback that flips a note from active to
played is modelled as a separate operation (timerFire) so that executions can
interleave ticks and timer expirations exactly as the browser event loop does.
-/

/-- One entry of a pattern: pitch name, fret and string number
(src/main.js PatternGenerator data, e.g. lines 315-349). -/
structure PatternEntry where
  pitch : String
  fret : Int
  string : Int
deriving DecidableEq

/-- Runtime note entity (src/main.js Note constructor, lines 205-214). -/
structure Note where
  pitch : String
  fret : Int
  string : Int
  x : Rat
  y : Rat
  active : Bool
  played : Bool
deriving DecidableEq

/-- Note.update (src/main.js line 216-218): move left by speed pixels. -/
def Note.update (n : Note) (speed : Rat) : Note :=
  { n with x := n.x - speed }

/-- Math.abs on rationals, as used in the trigger test. -/
def jsAbs (x : Rat) : Rat :=
  if x < 0 then -x else x

/-- The x coordinate of the red play line (src/main.js lines 423 and 457). -/
def playLineX : Rat := 200

/-- Pixels between notes (src/main.js line 385: let spacing = 60). -/
def spacing : Rat := 60

/-- Number of beats before the first note (src/main.js line 386). -/
def leadInBeats : Rat := 4

/-- Lead distance in pixels ahead of the play line: 4 beats of 60 px. -/
def leadDistance : Rat := leadInBeats * spacing

/-- Initial x of note 0 (src/main.js line 387: 200 + leadInBeats * spacing). -/
def startX : Rat := playLineX + leadInBeats * spacing

/-- Tempo-to-speed mapping of the tempoChanged handler
(src/main.js line 376: noteSpeed = (tempo / 60) * 1). -/
def noteSpeedOfTempo (tempo : Rat) : Rat := tempo / 60 * 1

/-- The p5.js map(value, start1, stop1, start2, stop2) linear interpolation. -/
def p5map (v a b c d : Rat) : Rat := c + ((v - a) / (b - a)) * (d - c)

/-- Tempo-to-speed mapping of the earlier revision
(src/unnamed/part_000 line 291: noteSpeed = map(tempo, 60, 180, 0.5, 2)). -/
def noteSpeedOfTempoRev0 (tempo : Rat) : Rat := p5map tempo 60 180 0.5 2

/-- Events observable from one Player.update tick: the playbackStarted
broadcast (src/main.js line 427) and the playNote request handed to the
audio engine (src/main.js lines 433-435). -/
inductive PEvent where
  | playbackStarted : PEvent
  | playNote : String → Rat → PEvent
deriving DecidableEq

/-- Player state (src/main.js constructor, lines 360-367, plus
currentPattern set by loadPattern, line 381). -/
structure Player where
  isPlaying : Bool
  playPosition : Rat
  notes : List Note
  tempo : Rat
  noteSpeed : Rat
  currentPattern : List PatternEntry
deriving DecidableEq

/-- The freshly constructed Player (src/main.js lines 363-367); the JS
currentPattern starts undefined, rendered here as the empty pattern. -/
def initPlayer : Player :=
  { isPlaying := false, playPosition := 0, notes := [], tempo := 100,
    noteSpeed := 1, currentPattern := [] }

/-- Player.loadPattern (src/main.js lines 380-398): store the pattern,
reset playPosition, rebuild the notes at startX + i * spacing. -/
def Player.loadPattern (p : Player) (pattern : List PatternEntry) : Player :=
  { p with
    currentPattern := pattern,
    playPosition := 0,
    notes := pattern.enum.map (fun ie =>
      { pitch := ie.2.pitch, fret := ie.2.fret, string := ie.2.string,
        x := startX + (ie.1 : Rat) * spacing, y := 0,
        active := false, played := false }) }

/-- Player.play (src/main.js lines 400-403). -/
def Player.play (p : Player) : Player := { p with isPlaying := true }

/-- Player.pause (src/main.js lines 405-408). -/
def Player.pause (p : Player) : Player := { p with isPlaying := false }

/-- The tempoChanged handler (src/main.js lines 373-377). -/
def Player.tempoChanged (p : Player) (tempo : Rat) : Player :=
  { p with tempo := tempo, noteSpeed := noteSpeedOfTempo tempo }

/-- Player.setPosition (src/main.js lines 410-414): record the position,
then re-invoke loadPattern on the current pattern (loadPattern in turn
resets playPosition to zero). -/
def Player.setPosition (p : Player) (pos : Rat) : Player :=
  ({ p with playPosition := pos }).loadPattern p.currentPattern

/-- ReplayCommand (src/main.js lines 184-194): the command is constructed
with startPos = player.playPosition and immediately executed by the button
handler, so execute runs setPosition(playPosition) then play(). -/
def replayExecute (p : Player) : Player :=
  (p.setPosition p.playPosition).play

/-- The forEach body of Player.update (src/main.js lines 419-442), walking
the notes array in order.  done holds the already-visited (mutated) prefix,
the second list the notes still to visit; the JS forEach mutates objects in
place, so the every-check at line 426 sees the mutated prefix, the current
note (already marked active at line 424) and the untouched suffix.  The
playNote request scheduled through Tone.Draw at lines 433-435 is recorded
as an emitted event with the tempo-based duration of line 430; the
setTimeout of lines 437-440 is modelled by the separate timerFire
operation below, since it only runs noteDuration seconds later. -/
def updateLoop (speed tempo : Rat) : List Note → List Note → List Note × List PEvent
  | done, [] => (done, [])
  | done, n :: rest =>
    let n1 : Note := n.update speed
    if jsAbs (n1.x - playLineX) < 2 ∧ n1.played = false then
      let n2 : Note := { n1 with active := true }
      let started : List PEvent :=
        if (done ++ n2 :: rest).all (fun m => !m.played) then
          [PEvent.playbackStarted]
        else []
      let r := updateLoop speed tempo (done ++ [n2]) rest
      (r.1, started ++ PEvent.playNote n2.pitch (60 / tempo) :: r.2)
    else
      let r := updateLoop speed tempo (done ++ [n1]) rest
      (r.1, r.2)

/-- Player.update (src/main.js lines 416-443): no-op while paused,
otherwise run the forEach over the notes. -/
def Player.update (p : Player) : Player × List PEvent :=
  if p.isPlaying = false then (p, [])
  else
    let r := updateLoop p.noteSpeed p.tempo [] p.notes
    ({ p with notes := r.1 }, r.2)

/-- Body of the deferred setTimeout callback (src/main.js lines 437-440):
clear active, latch played. -/
def fireNote (n : Note) : Note := { n with active := false, played := true }

/-- Apply the deferred callback to the note at index i, leaving the rest of
the list untouched. -/
def fireAt : Nat → List Note → List Note
  | _, [] => []
  | 0, n :: rest => fireNote n :: rest
  | i + 1, n :: rest => n :: fireAt i rest

/-- A pending setTimeout from src/main.js lines 437-440 expiring: the note
it captured (position i of the notes array) goes inactive and played. -/
def Player.timerFire (p : Player) (i : Nat) : Player :=
  { p with notes := fireAt i p.notes }

/-- The operations that can touch a loaded timeline without reloading it:
the transport commands, a tempo change, one update tick, and the expiry of
a pending deferred transition. -/
inductive Op where
  | play : Op
  | pause : Op
  | tempoChanged : Rat → Op
  | update : Op
  | timerFire : Nat → Op

/-- Dispatch one operation on the player state. -/
def Player.step (p : Player) : Op → Player
  | Op.play => p.play
  | Op.pause => p.pause
  | Op.tempoChanged t => p.tempoChanged t
  | Op.update => (p.update).1
  | Op.timerFire i => p.timerFire i

/-- Run k consecutive update ticks, concatenating the emitted events. -/
def runUpdates : Nat → Player → Player × List PEvent
  | 0, p => (p, [])
  | k + 1, p =>
    let r := p.update
    let r2 := runUpdates k r.1
    (r2.1, r.2 ++ r2.2)

/-- Number of playNote events for a given pitch in an event list. -/
def countPitch (pitch : String) (evs : List PEvent) : Nat :=
  (evs.filter (fun e =>
    match e with
    | PEvent.playNote q _ => q == pitch
    | _ => false)).length

/-- Y position of the top staff line (src/main.js line 282). -/
def staffY : Rat := 130

/-- Space between staff lines (src/main.js line 283). -/
def lineSpacing : Rat := 10

/-- The notePositions table of Note.getNoteY (src/main.js lines 284-306),
in source order. -/
def notePositions : List (String × Rat) :=
  [("D4", staffY + 4.5 * lineSpacing),
   ("E4", staffY + 4 * lineSpacing),
   ("F4", staffY + 3.5 * lineSpacing),
   ("G4", staffY + 3 * lineSpacing),
   ("A4", staffY + 2.5 * lineSpacing),
   ("B4", staffY + 2 * lineSpacing),
   ("C5", staffY + 1.5 * lineSpacing),
   ("D5", staffY + lineSpacing),
   ("E5", staffY + 0.5 * lineSpacing),
   ("F5", staffY),
   ("C4", staffY + 5 * lineSpacing),
   ("B3", staffY + 5.5 * lineSpacing),
   ("A3", staffY + 6 * lineSpacing),
   ("G3", staffY + 6.5 * lineSpacing),
   ("F3", staffY + 7 * lineSpacing),
   ("E3", staffY + 7.5 * lineSpacing),
   ("rest", staffY + 3 * lineSpacing)]

/-- Note.getNoteY (src/main.js lines 280-308):
notePositions[pitch] with fallback staffY + 25.  The JS fallback uses the
or-operator, which agrees with an option-default here because every table
value is at least 130 and hence truthy. -/
def getNoteY (pitch : String) : Rat :=
  match notePositions.lookup pitch with
  | some y => y
  | none => staffY + 25

/-- The pitches of the sampleMap handed to the Tone.Sampler
(src/main.js lines 18-67). -/
def sampleMapKeys : List String :=
  ["A#1", "A#3", "A#4", "A#5", "A1", "A2", "A3", "A4", "A5",
   "B1", "B2", "B3", "B4", "B5",
   "C#2", "C#4", "C#5", "C2", "C3", "C4", "C5", "C6",
   "D#2", "D#4", "D#5", "D2", "D3", "D4", "D5",
   "E2", "E3", "E4", "E5",
   "F#3", "F#4", "F#5", "F2", "F3", "F4", "F5",
   "G#1", "G#3", "G#5", "G1", "G2", "G3", "G4", "G5"]

/-- Audio engine flag state (src/main.js constructor, lines 2-8). -/
structure AudioEngine where
  audioEnabled : Bool
  isInitialized : Bool
deriving DecidableEq

/-- The sampler.triggerAttackRelease call: the external Tone.Sampler either
accepts the pitch (decided by the oracle ok, e.g. membership in the sample
map) or throws, which the embedding renders as an Except value. -/
def samplerTrigger (ok : String → Bool) (pitch : String) : Except Unit String :=
  if ok pitch then Except.ok pitch else Except.error ()

/-- AudioEngine.playNote (src/main.js lines 115-140).  ok models which
pitches the external sampler accepts, ctxRunning models
Tone.context.state being running.  The result records the unchanged
engine state and the pitch actually triggered (with its duration), none
when nothing is played; the try/catch of the source is the match on the
Except, falling back to C4 and swallowing a second failure. -/
def AudioEngine.playNote (ok : String → Bool) (ctxRunning : Bool)
    (e : AudioEngine) (pitch : String) (duration : Rat) :
    AudioEngine × Option (String × Rat) :=
  if e.audioEnabled = false ∨ e.isInitialized = false ∨ pitch = "rest" then
    (e, none)
  else if ctxRunning = false then (e, none)
  else
    match samplerTrigger ok pitch with
    | Except.ok q => (e, some (q, duration))
    | Except.error _ =>
      match samplerTrigger ok "C4" with
      | Except.ok q => (e, some (q, duration))
      | Except.error _ => (e, none)

/-- The per-note state change of one updateLoop visit, factored out of
updateLoop for the proofs below (updateLoop is proven to act as this map
on every note). -/
def noteTransform (speed : Rat) (n : Note) : Note :=
  let n1 : Note := n.update speed
  if jsAbs (n1.x - playLineX) < 2 ∧ n1.played = false then
    { n1 with active := true }
  else n1

/-- The C major arpeggio pattern of the spec scenario (the first entry of
the earlier revision's catalog, src/unnamed/part_000 lines 257-258). -/
def specPattern : List PatternEntry :=
  [⟨"C4", 1, 2⟩, ⟨"E4", 0, 1⟩, ⟨"G4", 3, 1⟩, ⟨"C5", 8, 1⟩]

/-- The scenario start state: load the pattern, set tempo 100 through the
tempoChanged handler, press play. -/
def scenarioPlayer : Player :=
  ((initPlayer.loadPattern specPattern).tempoChanged 100).play

/-- The note entity at index 0 right after loading specPattern. -/
def replayNote0 : Note :=
  { pitch := "C4", fret := 1, string := 2, x := startX + (0 : Rat) * spacing,
    y := 0, active := false, played := false }

/-- A note that has already been played, for the latch witness. -/
def latchNote : Note :=
  { pitch := "E4", fret := 0, string := 1, x := 200, y := 0,
    active := false, played := true }

/-- A playing timeline holding the already-played note. -/
def latchPlayer : Player :=
  { initPlayer with notes := [latchNote], isPlaying := true }

/-- Each updateLoop visit leaves the played flag of a note untouched. -/
theorem noteTransform_played (speed : Rat) (n : Note) :
    (noteTransform speed n).played = n.played := by
  simp only [noteTransform, Note.update]
  split <;> rfl

/-- The note list produced by updateLoop is the pointwise noteTransform
image appended to the already-visited prefix. -/
theorem updateLoop_fst (speed tempo : Rat) (l done : List Note) :
    (updateLoop speed tempo done l).1 = done ++ l.map (noteTransform speed) := by
  induction l generalizing done with
  | nil => simp [updateLoop]
  | cons n rest ih =>
    simp only [updateLoop, noteTransform, Note.update, List.map_cons]
    split
    · rw [ih]
      simp
    · rw [ih]
      simp

/-- fireAt only rewrites the addressed index, applying fireNote there. -/
theorem fireAt_getElem? (l : List Note) (j i : Nat) :
    (fireAt j l)[i]? = if i = j then l[i]?.map fireNote else l[i]? := by
  induction l generalizing j i with
  | nil => simp [fireAt]
  | cons n rest ih =>
    cases j with
    | zero =>
      cases i with
      | zero => simp [fireAt]
      | succ i => simp [fireAt]
    | succ j =>
      cases i with
      | zero => simp [fireAt]
      | succ i => simpa [fireAt, Nat.succ_inj] using ih j i

/-- loadPattern places at index i the note built from the i-th pattern
entry at startX + i * spacing. -/
theorem loadPattern_getElem? (p : Player) (pat : List PatternEntry) (i : Nat) :
    (p.loadPattern pat).notes[i]? = pat[i]?.map (fun e =>
      { pitch := e.pitch, fret := e.fret, string := e.string,
        x := startX + (i : Rat) * spacing, y := 0,
        active := false, played := false }) := by
  simp only [Player.loadPattern, List.getElem?_map, List.getElem?_enum,
    Option.map_map, Function.comp]
  cases pat[i]? <;> rfl

/-- C3: after loadPattern(P) the timeline holds exactly length(P) Note
entities, each with played=false and active=false, the play position is
reset to zero, and the isPlaying flag has the same value it had before the
call. -/
theorem loadPattern_resets (p : Player) (pat : List PatternEntry) :
    (p.loadPattern pat).notes.length = pat.length ∧
    (p.loadPattern pat).playPosition = 0 ∧
    (p.loadPattern pat).isPlaying = p.isPlaying ∧
    ∀ n ∈ (p.loadPattern pat).notes, n.played = false ∧ n.active = false := by
  refine ⟨by simp [Player.loadPattern], rfl, rfl, ?_⟩
  intro n hn
  simp only [Player.loadPattern, List.mem_map] at hn
  obtain ⟨ie, _, rfl⟩ := hn
  exact ⟨rfl, rfl⟩

/-- C3 witness: the reset contract evaluated on a concrete load. -/
theorem loadPattern_resets_witness :
    (initPlayer.loadPattern specPattern).notes.length = specPattern.length ∧
    (initPlayer.loadPattern specPattern).playPosition = 0 ∧
    (initPlayer.loadPattern specPattern).isPlaying = initPlayer.isPlaying ∧
    (replayNote0.played = false ∧ replayNote0.active = false) := by
  have h := loadPattern_resets initPlayer specPattern
  refine ⟨h.1, h.2.1, h.2.2.1, h.2.2.2 replayNote0 ?_⟩
  with_unfolding_all decide

/-- C4: loadPattern(P) sets the i-th Note's initial horizontal position to
playLineCoordinate + leadDistance + i * noteSpacing, the three being the
fixed constants 200, 240 (4 beats of 60 px) and 60 of the program. -/
theorem loadPattern_initial_positions (p : Player) (pat : List PatternEntry)
    (i : Nat) (h : i < pat.length) :
    ∃ n, (p.loadPattern pat).notes[i]? = some n ∧
      n.x = playLineX + leadDistance + (i : Rat) * spacing := by
  rw [loadPattern_getElem?, List.getElem?_eq_getElem h]
  exact ⟨_, rfl, rfl⟩

/-- C4 witness: the position formula evaluated at index 1 of the scenario
pattern. -/
theorem loadPattern_initial_positions_witness :
    (1 < specPattern.length) ∧
    ∃ n, (initPlayer.loadPattern specPattern).notes[1]? = some n ∧
      n.x = playLineX + leadDistance + (1 : Rat) * spacing :=
  ⟨by decide, loadPattern_initial_positions initPlayer specPattern 1 (by decide)⟩

/-- C2: executing the replay command from any prior transport state resets
every Note of the current pattern to its initial horizontal position with
played=false and active=false, and then sets isPlaying to true. -/
theorem replay_resets_and_plays (p : Player) :
    (replayExecute p).isPlaying = true ∧
    (replayExecute p).notes.length = p.currentPattern.length ∧
    ∀ (i : Nat) (n : Note), (replayExecute p).notes[i]? = some n →
      n.x = playLineX + leadDistance + (i : Rat) * spacing ∧
      n.played = false ∧ n.active = false := by
  refine ⟨rfl, by simp [replayExecute, Player.setPosition, Player.play, Player.loadPattern], ?_⟩
  intro i n hn
  have : (replayExecute p).notes[i]? =
      ((({ p with playPosition := p.playPosition } : Player).loadPattern
        p.currentPattern).notes)[i]? := rfl
  rw [this, loadPattern_getElem?] at hn
  cases hpat : p.currentPattern[i]? with
  | none => rw [hpat] at hn; exact absurd hn (by simp)
  | some e =>
    rw [hpat] at hn
    cases hn
    exact ⟨rfl, rfl, rfl⟩

/-- C2 witness: replay on a loaded, paused player evaluated at index 0. -/
theorem replay_resets_and_plays_witness :
    (replayExecute (initPlayer.loadPattern specPattern)).isPlaying = true ∧
    (replayExecute (initPlayer.loadPattern specPattern)).notes[0]? = some replayNote0 ∧
    (replayNote0.x = playLineX + leadDistance + (0 : Rat) * spacing ∧
      replayNote0.played = false ∧ replayNote0.active = false) := by
  have h := replay_resets_and_plays (initPlayer.loadPattern specPattern)
  have h0 : (replayExecute (initPlayer.loadPattern specPattern)).notes[0]? =
      some replayNote0 := by with_unfolding_all rfl
  exact ⟨h.1, h0, h.2.2 0 replayNote0 h0⟩

/-- C8: while the transport is paused, Player.update leaves the whole
player state unchanged and emits no event at all. -/
theorem update_paused_noop (p : Player) (h : p.isPlaying = false) :
    p.update = (p, []) := by
  simp [Player.update, h]

/-- C8 witness: the paused no-op evaluated on the freshly constructed
player. -/
theorem update_paused_noop_witness : initPlayer.update = (initPlayer, []) :=
  update_paused_noop initPlayer rfl

/-- C5: the tempo-to-speed mapping applied on every tempo change is
monotone on the supported range 60-180 bpm, in both revisions: the
current direct ratio tempo/60 and the earlier clamped-free linear map
map(tempo, 60, 180, 0.5, 2). -/
theorem tempo_speed_monotone (p : Player) (t1 t2 : Rat)
    (h60 : 60 ≤ t1) (hlt : t1 < t2) (h180 : t2 ≤ 180) :
    (p.tempoChanged t1).noteSpeed ≤ (p.tempoChanged t2).noteSpeed ∧
    noteSpeedOfTempoRev0 t1 ≤ noteSpeedOfTempoRev0 t2 := by
  constructor
  · show noteSpeedOfTempo t1 ≤ noteSpeedOfTempo t2
    simp only [noteSpeedOfTempo, mul_one]
    linarith
  · simp only [noteSpeedOfTempoRev0, p5map]
    have h05 : (0.5 : Rat) = 1 / 2 := by norm_num
    rw [h05]
    linarith

/-- C5 witness: monotonicity evaluated at tempos 100 and 120. -/
theorem tempo_speed_monotone_witness :
    (initPlayer.tempoChanged 100).noteSpeed ≤ (initPlayer.tempoChanged 120).noteSpeed ∧
    noteSpeedOfTempoRev0 100 ≤ noteSpeedOfTempoRev0 120 :=
  tempo_speed_monotone initPlayer 100 120 (by with_unfolding_all decide)
    (by with_unfolding_all decide) (by with_unfolding_all decide)

/-- C6: an unknown pitch such as Z9 resolves in the staff-offset table to
the fixed fallback offset staffY + 25 instead of failing, and on the audio
path a pitch the sampler rejects is resolved by the catch block to the
fixed default pitch C4, with no error escaping playNote. -/
theorem unknown_pitch_fallback (pitch : String) (ok : String → Bool) (d : Rat)
    (htab : notePositions.lookup pitch = none)
    (hok : ok pitch = false) (hc4 : ok "C4" = true) (hrest : pitch ≠ "rest") :
    getNoteY pitch = staffY + 25 ∧
    AudioEngine.playNote ok true ⟨true, true⟩ pitch d =
      (⟨true, true⟩, some ("C4", d)) := by
  constructor
  · simp [getNoteY, htab]
  · simp [AudioEngine.playNote, samplerTrigger, hok, hc4, hrest]

/-- C6 witness: the fallbacks evaluated at the pitch Z9 with the sampler
accepting exactly the sample-map keys. -/
theorem unknown_pitch_fallback_witness :
    getNoteY "Z9" = staffY + 25 ∧
    AudioEngine.playNote (fun s => sampleMapKeys.contains s) true
      ⟨true, true⟩ "Z9" (1/2) = (⟨true, true⟩, some ("C4", 1/2)) :=
  unknown_pitch_fallback "Z9" (fun s => sampleMapKeys.contains s) (1/2)
    (by rfl) (by rfl) (by rfl) (by decide)

/-- C9: calling playNote before audio initialization has completed (either
flag still false) returns none without attempting playback, leaves the
engine unchanged, and in particular keeps audioEnabled false when it was
false. -/
theorem playNote_uninitialized_noop (ok : String → Bool) (ctx : Bool)
    (e : AudioEngine) (pitch : String) (d : Rat)
    (h : e.audioEnabled = false ∨ e.isInitialized = false) :
    AudioEngine.playNote ok ctx e pitch d = (e, none) ∧
    (e.audioEnabled = false →
      (AudioEngine.playNote ok ctx e pitch d).1.audioEnabled = false) := by
  have hres : AudioEngine.playNote ok ctx e pitch d = (e, none) := by
    unfold AudioEngine.playNote
    rw [if_pos]
    rcases h with h | h
    · exact Or.inl h
    · exact Or.inr (Or.inl h)
  exact ⟨hres, fun hen => by rw [hres]; exact hen⟩

/-- C9 witness: playNote on the freshly constructed engine (both flags
false). -/
theorem playNote_uninitialized_noop_witness :
    AudioEngine.playNote (fun s => sampleMapKeys.contains s) true
      ⟨false, false⟩ "C4" (1/2) = (⟨false, false⟩, none) ∧
    ((false : Bool) = false →
      (AudioEngine.playNote (fun s => sampleMapKeys.contains s) true
        ⟨false, false⟩ "C4" (1/2)).1.audioEnabled = false) :=
  playNote_uninitialized_noop (fun s => sampleMapKeys.contains s) true
    ⟨false, false⟩ "C4" (1/2) (Or.inl rfl)

/-- C10: playNote with the sentinel pitch rest is a no-op for every engine
state, sampler oracle, context state and duration: no sample is triggered
and no error is raised. -/
theorem playNote_rest_noop (ok : String → Bool) (ctx : Bool)
    (e : AudioEngine) (d : Rat) :
    AudioEngine.playNote ok ctx e "rest" d = (e, none) := by
  unfold AudioEngine.playNote
  rw [if_pos (Or.inr (Or.inr rfl))]

/-- While playing, one update tick maps every note through noteTransform. -/
theorem update_playing_notes (p : Player) (h : ¬ p.isPlaying = false) :
    (p.update).1.notes = List.map (noteTransform p.noteSpeed) p.notes := by
  simp [Player.update, h, updateLoop_fst]

/-- C7: the played flag is a one-way latch: if the note at index i has
played = true, then after any operation other than a reload - play, pause,
a tempo change, an update tick, or a pending deferred transition firing -
the note at index i still has played = true. -/
theorem played_latch (op : Op) (p : Player) (i : Nat) (n : Note)
    (hget : p.notes[i]? = some n) (hp : n.played = true) :
    ∃ n', (p.step op).notes[i]? = some n' ∧ n'.played = true := by
  cases op with
  | play => exact ⟨n, hget, hp⟩
  | pause => exact ⟨n, hget, hp⟩
  | tempoChanged t => exact ⟨n, hget, hp⟩
  | timerFire j =>
    by_cases hij : i = j
    · refine ⟨fireNote n, ?_, rfl⟩
      show (fireAt j p.notes)[i]? = some (fireNote n)
      rw [fireAt_getElem?, if_pos hij, hget]
      rfl
    · refine ⟨n, ?_, hp⟩
      show (fireAt j p.notes)[i]? = some n
      rw [fireAt_getElem?, if_neg hij, hget]
  | update =>
    by_cases hpl : p.isPlaying = false
    · refine ⟨n, ?_, hp⟩
      show ((p.update).1.notes)[i]? = some n
      simp only [Player.update, hpl, if_pos]
      exact hget
    · refine ⟨noteTransform p.noteSpeed n, ?_, by rw [noteTransform_played]; exact hp⟩
      show ((p.update).1.notes)[i]? = some (noteTransform p.noteSpeed n)
      rw [update_playing_notes p hpl]
      simp only [List.getElem?_map, hget]
      rfl

/-- C7 witness: the latch on a playing timeline holding one already-played
note, across an update tick. -/
theorem played_latch_witness :
    ∃ n', (latchPlayer.step Op.update).notes[0]? = some n' ∧ n'.played = true :=
  played_latch Op.update latchPlayer 0 latchNote rfl rfl

set_option maxRecDepth 100000 in
/-- C1 is refuted by this run: load the spec scenario pattern, set tempo
100 (so noteSpeed = 5/3 px per frame) and play.  Note 0 starts at x = 440
and satisfies the trigger test abs(x - 200) < 2 on ticks 143, 144 and 145
(x = 605/3, 200, 595/3).  The deferred setTimeout that would set played is
scheduled with delay 60/100 s = 36 frames at 60 fps, so it cannot have
fired between these consecutive ticks; since played is still false on each
of the three ticks, Player.update issues a playNote request on all three,
three calls for one Note in one load where the claim requires exactly
one. -/
theorem update_triple_trigger_tempo100 :
    countPitch "C4" (runUpdates 145 scenarioPlayer).2 = 3 ∧ (3 : Nat) ≠ 1 :=
  ⟨by with_unfolding_all decide, by decide⟩
